import Mathlib

/-!
Shallow embedding of `src/utilities.py` from the Stability-Of-Submoons
repository, together with theorems settling the frozen claims about it.

Modelling conventions:
* Python floats are modelled as real numbers (`ℝ`); the seconds-to-years
  conversion, which only uses division and decimal rounding, is modelled
  over `ℚ` so that it stays executable.
* Python `int` is modelled as `ℤ`.
* A raised Python exception is modelled with `Except PyError _`; a function
  that can also emit `warnings.warn` diagnostics returns the list of warning
  messages it emitted alongside its `Except` result.
* `None` is modelled as `Option.none`.
-/

/-- The kinds of Python exceptions the embedded code can raise.
`valueError` corresponds to an explicit `raise ValueError(...)`;
`attributeError` to attribute access on `None` (e.g. `None.hn`);
`typeError` to arithmetic on `None` (e.g. `None * 3.0`). -/
inductive PyError where
  | valueError
  | attributeError
  | typeError
deriving DecidableEq, Repr

/-- Embedding of the `CelestialBody` class of `src/utilities.py`.
The constructor `__init__` stores exactly these attributes (the
`inertial_moment` argument of `__init__` is read but never stored):
`mass`, `rho` (density), `omega` (spin frequency), `k` (love number),
`Q` (quality factor), `descriptive_index`, `name`, `hn` (hierarchy number),
`a` (semi-major axis, `None` for a star) and `hosting_body`
(`None` for a star). -/
inductive CelestialBody where
  | mk (mass rho omega k Q : ℝ) (descriptive_index name : String)
       (hn : ℤ) (a : Option ℝ) (hosting_body : Option CelestialBody)

/-- Attribute `self.mass`. -/
def CelestialBody.mass : CelestialBody → ℝ
  | .mk m _ _ _ _ _ _ _ _ _ => m

/-- Attribute `self.rho` (the density). -/
def CelestialBody.rho : CelestialBody → ℝ
  | .mk _ r _ _ _ _ _ _ _ _ => r

/-- Attribute `self.omega` (the spin frequency). -/
def CelestialBody.omega : CelestialBody → ℝ
  | .mk _ _ o _ _ _ _ _ _ _ => o

/-- Attribute `self.k` (the second tidal love number). -/
def CelestialBody.k : CelestialBody → ℝ
  | .mk _ _ _ k _ _ _ _ _ _ => k

/-- Attribute `self.Q` (the quality factor). -/
def CelestialBody.Q : CelestialBody → ℝ
  | .mk _ _ _ _ q _ _ _ _ _ => q

/-- Attribute `self.descriptive_index`. -/
def CelestialBody.descriptive_index : CelestialBody → String
  | .mk _ _ _ _ _ d _ _ _ _ => d

/-- Attribute `self.name`. -/
def CelestialBody.name : CelestialBody → String
  | .mk _ _ _ _ _ _ n _ _ _ => n

/-- Attribute `self.hn` (the hierarchy number). -/
def CelestialBody.hn : CelestialBody → ℤ
  | .mk _ _ _ _ _ _ _ h _ _ => h

/-- Attribute `self.a` (the semi-major axis, `None` for a star). -/
def CelestialBody.a : CelestialBody → Option ℝ
  | .mk _ _ _ _ _ _ _ _ a _ => a

/-- Attribute `self.hosting_body` (`None` for a star). -/
def CelestialBody.hosting_body : CelestialBody → Option CelestialBody
  | .mk _ _ _ _ _ _ _ _ _ h => h

/-- Embedding of `check_if_direct_orbits` (utilities.py lines 14-28):
raises `ValueError` when the hosted body has hierarchy number 1, or when
the absolute difference of the two hierarchy numbers is not 1; otherwise
it returns without doing anything (it mutates nothing). -/
def check_if_direct_orbits (hosting_body hosted_body : CelestialBody) :
    Except PyError Unit :=
  if hosted_body.hn = 1 then .error .valueError
  else if |hosted_body.hn - hosting_body.hn| ≠ 1 then .error .valueError
  else .ok ()

/-- Embedding of `CelestialBody.__init__` (utilities.py lines 258-330).
For `hierarchy_number == 1` the body is created with `hosting_body = None`
and `a = None`, ignoring the supplied `semi_major_axis` and `hosting_body`
arguments. Otherwise `self.a` is set to the supplied axis and
`check_if_direct_orbits(hosting_body, self)` must pass, a failure being
re-raised as a `ValueError`; passing `None` as the host raises an
`AttributeError` inside the check (accessing `None.hn`), which the
`except ValueError` clause does not catch. The `inertial_moment` argument
is accepted but never stored on the instance. -/
def celestial_body_init (mass density : ℝ) (semi_major_axis : Option ℝ)
    (spin_frequency love_number quality_factor : ℝ)
    (descriptive_index name : String) (hierarchy_number : ℤ)
    (hosting_body : Option CelestialBody) (inertial_moment : ℝ) :
    Except PyError CelestialBody :=
  if hierarchy_number = 1 then
    .ok (.mk mass density spin_frequency love_number quality_factor
          descriptive_index name hierarchy_number none none)
  else
    match hosting_body with
    | none =>
      -- `check_if_direct_orbits` evaluates `hosting_body.hn` with a `None` host.
      .error .attributeError
    | some host =>
      let body : CelestialBody :=
        .mk mass density spin_frequency love_number quality_factor
          descriptive_index name hierarchy_number semi_major_axis (some host)
      match check_if_direct_orbits host body with
      | .ok _ => .ok body
      | .error _ => .error .valueError

/-- Embedding of `CelestialBody.update_semi_major_axis_a`
(utilities.py lines 345-352): `self.a = update_value`. -/
def CelestialBody.update_semi_major_axis_a :
    CelestialBody → ℝ → CelestialBody
  | .mk m r o k q d n h _ hb, v => .mk m r o k q d n h (some v) hb

/-- Embedding of `CelestialBody.update_spin_frequency_omega`
(utilities.py lines 354-361): `self.omega = update_value`. -/
def CelestialBody.update_spin_frequency_omega :
    CelestialBody → ℝ → CelestialBody
  | .mk m r _ k q d n h a hb, v => .mk m r v k q d n h a hb

/-- Round a rational to the nearest integer, ties to even, mirroring the
IEEE-754 round-half-even rule used by `numpy.round`. -/
def roundHalfEven (q : ℚ) : ℤ :=
  let f := ⌊q⌋
  let r := q - (f : ℚ)
  if r < 1 / 2 then f
  else if 1 / 2 < r then f + 1
  else if Even f then f else f + 1

/-- Rounding to two decimal places, mirroring `numpy.round(x, 2)`. -/
def np_round2 (q : ℚ) : ℚ := (roundHalfEven (q * 100) : ℚ) / 100

/-- The warning text emitted by `turn_seconds_to_years` on an unknown keyword. -/
def secondsWarnMsg : String :=
  "Something unexpected occured inside function turn_seconds_to_years."

/-- Embedding of `turn_seconds_to_years` (utilities.py lines 414-430):
divides the seconds by `3600*24*365`, then, depending on the keyword,
by a further `1`, `10^6` or `10^9`, rounding the result to two decimal
places. For any other keyword it emits a warning via `warnings.warn`
(which does not interrupt execution) and falls off the end of the
function, returning Python `None`. The first component is the list of
warning messages emitted, the second the returned value (`none` models
the Python `None` return). -/
def turn_seconds_to_years (seconds : ℚ) (keyword : String) :
    List String × Except PyError (Option ℚ) :=
  let conversion_factor : ℚ := 3600 * 24 * 365
  let seconds_in_years := seconds / conversion_factor
  if keyword = "Vanilla" then ([], .ok (some (np_round2 seconds_in_years)))
  else if keyword = "Millions" then
    ([], .ok (some (np_round2 (seconds_in_years / 10 ^ 6))))
  else if keyword = "Billions" then
    ([], .ok (some (np_round2 (seconds_in_years / 10 ^ 9))))
  else ([secondsWarnMsg], .ok none)

/-- The gravitational constant `G` imported from `scipy.constants`
(CODATA value 6.6743e-11). -/
noncomputable def Gconst : ℝ := 6.6743e-11

/-- Embedding of the property `CelestialBody.R` (utilities.py lines 389-399):
the mean radius derived from mass and density,
`(3 * mass / rho / (4 * pi)) ** (1/3)`. -/
noncomputable def CelestialBody.R (b : CelestialBody) : ℝ :=
  (3 * b.mass / b.rho / (4 * Real.pi)) ^ ((1 : ℝ) / 3)

/-- Embedding of `keplers_law_n_from_a_simple` (utilities.py lines 46-56):
`n = mu ** (1/2) * a ** (-3/2)`. -/
noncomputable def keplers_law_n_from_a_simple (a mu : ℝ) : ℝ :=
  mu ^ ((1 : ℝ) / 2) * a ^ (-(3 : ℝ) / 2)

/-- The axis-from-frequency conversion formula of `keplers_law_a_from_n`
(utilities.py line 70), `a = mu ** (1/3) * n ** (-2/3)`, taken as a
function of the raw scalars `n` and `mu` that the body-based wrapper
feeds into it. -/
noncomputable def keplers_law_a_from_n_formula (n mu : ℝ) : ℝ :=
  mu ^ ((1 : ℝ) / 3) * n ^ (-(2 : ℝ) / 3)

/-- The warning text emitted before the ancestry `ValueError` in
`get_hill_radius_relevant_to_body` and `get_critical_semi_major_axis`. -/
def hillWarnMsg : String :=
  "WARNING: Can the hill-radius between the planet and star be defined?"

/-- Embedding of `get_hill_radius_relevant_to_body` (utilities.py lines
95-122). For `hn <= 2` it warns and raises `ValueError`. Otherwise it
walks `j = hosted.hosting_body`, `i = j.hosting_body` and returns
`j.a * (j.mass / (3 * i.mass)) ** (1/3)`; a missing host link raises
`AttributeError` and a `None` axis on `j` raises `TypeError`. The first
component collects the warning messages emitted. -/
noncomputable def get_hill_radius_relevant_to_body (hosted_body : CelestialBody) :
    List String × Except PyError ℝ :=
  if hosted_body.hn ≤ 2 then ([hillWarnMsg], .error .valueError)
  else
    match hosted_body.hosting_body with
    | none => ([], .error .attributeError)
    | some j =>
      match j.hosting_body with
      | none => ([], .error .attributeError)
      | some i =>
        match j.a with
        | none => ([], .error .typeError)
        | some aj => ([], .ok (aj * (j.mass / (3 * i.mass)) ^ ((1 : ℝ) / 3)))

/-- Embedding of `get_critical_semi_major_axis` (utilities.py lines
125-153): picks `f = 0.4` for `hn == 3`, `f = 0.33` for `hn == 4`,
otherwise warns and raises `ValueError`; then returns
`f * get_hill_radius_relevant_to_body(hosted_body)`, propagating any
warning or exception of the inner call. -/
noncomputable def get_critical_semi_major_axis (hosted_body : CelestialBody) :
    List String × Except PyError ℝ :=
  if hosted_body.hn = 3 then
    let r := get_hill_radius_relevant_to_body hosted_body
    (r.1, r.2.map (fun x => 0.4 * x))
  else if hosted_body.hn = 4 then
    let r := get_hill_radius_relevant_to_body hosted_body
    (r.1, r.2.map (fun x => 0.33 * x))
  else ([hillWarnMsg], .error .valueError)

/-- Embedding of `get_roche_limit` (utilities.py lines 156-169): with
`j = hosted_body` and `i = j.hosting_body`, returns
`j.R * (3 * i.mass / j.mass) ** (1/3)`; a `None` host raises
`AttributeError`. -/
noncomputable def get_roche_limit (hosted_body : CelestialBody) :
    Except PyError ℝ :=
  match hosted_body.hosting_body with
  | none => .error .attributeError
  | some i =>
    .ok (hosted_body.R * (3 * i.mass / hosted_body.mass) ^ ((1 : ℝ) / 3))

/-- Embedding of `analytical_lifetime_one_tide` (utilities.py lines
172-192): with `j = hosted_body` and `i = j.hosting_body`,
`lhs = 2/13 * a_c ** (13/2) * (1 - (a_0 / a_c) ** (13/2))`,
`rhs = 3 * i.k / i.Q * (G / i.mass) ** (1/2) * i.R ** 5 * j.mass`,
returning `lhs / rhs`; a `None` host raises `AttributeError`. -/
noncomputable def analytical_lifetime_one_tide (a_0 a_c : ℝ)
    (hosted_body : CelestialBody) : Except PyError ℝ :=
  match hosted_body.hosting_body with
  | none => .error .attributeError
  | some i =>
    let left_hand_side :=
      2 / 13 * a_c ^ ((13 : ℝ) / 2) * (1 - (a_0 / a_c) ^ ((13 : ℝ) / 2))
    let right_hand_side :=
      3 * i.k / i.Q * (Gconst / i.mass) ^ ((1 : ℝ) / 2) * i.R ^ (5 : ℕ) *
        hosted_body.mass
    .ok (left_hand_side / right_hand_side)

/-- A sample star: hierarchy number 1, no host, no semi-major axis. -/
def sampleStar : CelestialBody :=
  .mk 1 1 1 1 1 "s" "star" 1 none none

/-- A sample planet orbiting `sampleStar` (hierarchy number 2). -/
def samplePlanet : CelestialBody :=
  .mk 1 1 1 1 1 "p" "planet" 2 (some 1) (some sampleStar)

/-- A sample moon orbiting `samplePlanet` (hierarchy number 3). -/
def sampleMoon : CelestialBody :=
  .mk 1 1 1 1 1 "m" "moon" 3 (some 1) (some samplePlanet)

/-- A sample submoon orbiting `sampleMoon` (hierarchy number 4). -/
def sampleSubmoon : CelestialBody :=
  .mk 1 1 1 1 1 "sm" "submoon" 4 (some 1) (some sampleMoon)

/-- A heavier star, used to compare Roche limits across host masses. -/
def heavyStar : CelestialBody :=
  .mk 8 1 1 1 1 "hs" "heavystar" 1 none none

/-- A hosted body orbiting `sampleStar`, for the Roche-limit comparison. -/
def rocheHostedLight : CelestialBody :=
  .mk 1 1 1 1 1 "j" "jlight" 2 (some 1) (some sampleStar)

/-- The same hosted body but orbiting `heavyStar`: identical mass and
density, only the host differs. -/
def rocheHostedHeavy : CelestialBody :=
  .mk 1 1 1 1 1 "j" "jheavy" 2 (some 1) (some heavyStar)

/-- C4: `check_if_direct_orbits(hosting, hosted)` succeeds exactly when the
hosted body's hierarchy number `c` is not 1 and `|c - p| = 1` for the
hosting body's hierarchy number `p`; in every other case it raises
`ValueError`. The embedding is a pure function of the two bodies, so it
has no side effects on either body. -/
theorem check_if_direct_orbits_ok_iff (hosting hosted : CelestialBody) :
    check_if_direct_orbits hosting hosted = .ok () ↔
      hosted.hn ≠ 1 ∧ |hosted.hn - hosting.hn| = 1 := by
  unfold check_if_direct_orbits
  split_ifs with h1 h2
  · simp [h1]
  · simp [h1, h2]
  · simp [h1, not_not.mp h2]

/-- C9: a constructor call with `hierarchy_number == 1` always succeeds and
produces a body whose `hosting_body` and `a` are both `None`, no matter
which `semi_major_axis` and `hosting_body` arguments were supplied; in
particular no adjacency validation runs on the star branch. -/
theorem star_init_ignores_host_and_axis
    (mass density : ℝ) (sma : Option ℝ) (om lo qu : ℝ) (d nm : String)
    (host : Option CelestialBody) (im : ℝ) :
    celestial_body_init mass density sma om lo qu d nm 1 host im =
      .ok (.mk mass density om lo qu d nm 1 none none) := by
  simp [celestial_body_init]

/-- C10: `update_semi_major_axis_a` changes only the `a` attribute and
`update_spin_frequency_omega` changes only the `omega` attribute; every
other stored attribute (`mass`, `rho`, `k`, `Q`, `descriptive_index`,
`name`, `hn`, `hosting_body`, and respectively `omega` / `a`) is left
unchanged by both mutators. (The constructor-supplied `inertial_moment`
argument is never stored on the instance — see `celestial_body_init` — so
no post-construction operation can alter it.) All remaining operations of
the module are pure functions of the bodies and return fresh values, so
they mutate nothing. -/
theorem updates_touch_only_their_field (b : CelestialBody) (v w : ℝ) :
    (b.update_semi_major_axis_a v).mass = b.mass ∧
    (b.update_semi_major_axis_a v).rho = b.rho ∧
    (b.update_semi_major_axis_a v).omega = b.omega ∧
    (b.update_semi_major_axis_a v).k = b.k ∧
    (b.update_semi_major_axis_a v).Q = b.Q ∧
    (b.update_semi_major_axis_a v).descriptive_index = b.descriptive_index ∧
    (b.update_semi_major_axis_a v).name = b.name ∧
    (b.update_semi_major_axis_a v).hn = b.hn ∧
    (b.update_semi_major_axis_a v).hosting_body = b.hosting_body ∧
    (b.update_semi_major_axis_a v).a = some v ∧
    (b.update_spin_frequency_omega w).mass = b.mass ∧
    (b.update_spin_frequency_omega w).rho = b.rho ∧
    (b.update_spin_frequency_omega w).k = b.k ∧
    (b.update_spin_frequency_omega w).Q = b.Q ∧
    (b.update_spin_frequency_omega w).descriptive_index =
      b.descriptive_index ∧
    (b.update_spin_frequency_omega w).name = b.name ∧
    (b.update_spin_frequency_omega w).hn = b.hn ∧
    (b.update_spin_frequency_omega w).hosting_body = b.hosting_body ∧
    (b.update_spin_frequency_omega w).a = b.a ∧
    (b.update_spin_frequency_omega w).omega = w := by
  cases b
  refine ⟨rfl, rfl, rfl, rfl, rfl, rfl, rfl, rfl, rfl, rfl,
    rfl, rfl, rfl, rfl, rfl, rfl, rfl, rfl, rfl, rfl⟩

/-- C2 counterexample: on the unrecognized keyword "Normal" (which is even
the Python default), `turn_seconds_to_years` does not fail with an error
at all — it emits the advisory warning and then returns Python `None`,
i.e. the call completes normally without producing a numeric value. -/
theorem turn_seconds_unknown_keyword_returns_none :
    turn_seconds_to_years 0 "Normal" = ([secondsWarnMsg], .ok none) := by
  rfl

/-- C2 amended: for the keywords "Vanilla", "Millions" and "Billions" the
function returns the seconds divided by `3600*24*365`, further divided by
`1`, `10^6` or `10^9` respectively and rounded to two decimal places; for
every other keyword it emits the advisory warning and returns `None`
(raising no error). -/
theorem turn_seconds_to_years_spec (s : ℚ) (u : String)
    (hv : u ≠ "Vanilla") (hm : u ≠ "Millions") (hb : u ≠ "Billions") :
    turn_seconds_to_years s u = ([secondsWarnMsg], .ok none) ∧
    turn_seconds_to_years s "Vanilla" =
      ([], .ok (some (np_round2 (s / (3600 * 24 * 365))))) ∧
    turn_seconds_to_years s "Millions" =
      ([], .ok (some (np_round2 (s / (3600 * 24 * 365) / 10 ^ 6)))) ∧
    turn_seconds_to_years s "Billions" =
      ([], .ok (some (np_round2 (s / (3600 * 24 * 365) / 10 ^ 9)))) := by
  refine ⟨?_, ?_, ?_, ?_⟩ <;> simp [turn_seconds_to_years, hv, hm, hb]

/-- Witness for `turn_seconds_to_years_spec` at five years of seconds and
the unknown keyword "Normal". -/
theorem turn_seconds_to_years_spec_witness :
    turn_seconds_to_years 157680000 "Normal" =
      ([secondsWarnMsg], .ok none) ∧
    turn_seconds_to_years 157680000 "Vanilla" =
      ([], .ok (some (np_round2 (157680000 / (3600 * 24 * 365))))) ∧
    turn_seconds_to_years 157680000 "Millions" =
      ([], .ok (some (np_round2 (157680000 / (3600 * 24 * 365) / 10 ^ 6)))) ∧
    turn_seconds_to_years 157680000 "Billions" =
      ([], .ok (some (np_round2 (157680000 / (3600 * 24 * 365) / 10 ^ 9)))) :=
  turn_seconds_to_years_spec 157680000 "Normal"
    (by decide) (by decide) (by decide)

/-- C1 counterexample: constructing a body of hierarchy number 2 whose
supplied host is `sampleMoon` (hierarchy number 3, i.e. one level GREATER
than the new body, not one less) succeeds: the constructor only checks
the absolute difference of the hierarchy numbers, so this call returns a
fully constructed body with the level-3 host attached instead of failing. -/
theorem init_accepts_host_one_level_above :
    celestial_body_init 1 1 (some 1) 1 1 1 "b" "bad" 2 (some sampleMoon) 1 =
      .ok (.mk 1 1 1 1 1 "b" "bad" 2 (some 1) (some sampleMoon)) ∧
    sampleMoon.hn = 2 + 1 := by
  constructor
  · simp [celestial_body_init, check_if_direct_orbits, sampleMoon,
      CelestialBody.hn]
  · rfl

/-- C1 amended: construction of a non-star body (`hn ≠ 1`) with a supplied
host succeeds — returning exactly the body with the supplied axis and host
attached — if and only if the ABSOLUTE difference `|hn - host.hn|` equals
1; a host one level below or one level ABOVE both pass, and every other
host level raises `ValueError` at construction time, so no body whose
host is at absolute hierarchy distance other than 1 is ever created. -/
theorem init_nonstar_succeeds_iff_abs_distance_one
    (mass density : ℝ) (sma : Option ℝ) (om lo qu : ℝ) (d nm : String)
    (hn : ℤ) (host : CelestialBody) (im : ℝ) (hne : hn ≠ 1) :
    (celestial_body_init mass density sma om lo qu d nm hn (some host) im =
        .ok (.mk mass density om lo qu d nm hn sma (some host))
      ↔ |hn - host.hn| = 1) ∧
    (|hn - host.hn| ≠ 1 →
      celestial_body_init mass density sma om lo qu d nm hn (some host) im =
        .error .valueError) := by
  obtain ⟨m2, r2, o2, k2, q2, d2, n2, h2, a2, hb2⟩ := host
  unfold celestial_body_init check_if_direct_orbits
  simp only [if_neg hne, CelestialBody.hn]
  constructor
  · by_cases hd : |hn - h2| = 1
    · simp [hd, hne]
    · simp [hd, hne]
  · intro hd
    simp_all [CelestialBody.hn]

/-- Witness for `init_nonstar_succeeds_iff_abs_distance_one` at hierarchy
number 2 with `sampleStar` as host. -/
theorem init_nonstar_succeeds_iff_abs_distance_one_witness :
    (celestial_body_init 1 1 (some 1) 1 1 1 "p" "planet" 2
        (some sampleStar) 1 =
        .ok (.mk 1 1 1 1 1 "p" "planet" 2 (some 1) (some sampleStar))
      ↔ |(2 : ℤ) - sampleStar.hn| = 1) ∧
    (|(2 : ℤ) - sampleStar.hn| ≠ 1 →
      celestial_body_init 1 1 (some 1) 1 1 1 "p" "planet" 2
        (some sampleStar) 1 = .error .valueError) :=
  init_nonstar_succeeds_iff_abs_distance_one 1 1 (some 1) 1 1 1 "p" "planet"
    2 sampleStar 1 (by decide)

/-- C3 counterexample: a body with hierarchy number 0 — outside {1,2,3,4} —
is constructible: hosting it on `sampleStar` (hierarchy number 1) passes
the only check performed, `|0 - 1| = 1`, so the constructor returns a
body whose hierarchy number is 0 instead of failing. -/
theorem init_accepts_hierarchy_number_zero :
    celestial_body_init 1 1 (some 1) 1 1 1 "z" "zero" 0 (some sampleStar) 1 =
      .ok (.mk 1 1 1 1 1 "z" "zero" 0 (some 1) (some sampleStar)) ∧
    (CelestialBody.mk 1 1 1 1 1 "z" "zero" 0 (some 1)
        (some sampleStar)).hn = 0 ∧
    ¬((0 : ℤ) = 1 ∨ (0 : ℤ) = 2 ∨ (0 : ℤ) = 3 ∨ (0 : ℤ) = 4) := by
  refine ⟨?_, rfl, by decide⟩
  simp [celestial_body_init, check_if_direct_orbits, sampleStar,
    CelestialBody.hn]

/-- C3 amended: the constructor never checks membership of the hierarchy
number in {1,2,3,4}: for EVERY integer `hn ≠ 1` and every host at absolute
hierarchy distance 1, construction succeeds and yields a body carrying
that hierarchy number — including values such as 0 or 5 that lie outside
{1,2,3,4} (and `hn = 1` always succeeds as a star). Only the star branch
and the absolute-distance-1 adjacency are enforced. -/
theorem init_enforces_no_hierarchy_range
    (hn : ℤ) (host : CelestialBody) (hne : hn ≠ 1)
    (hadj : |hn - host.hn| = 1)
    (mass density : ℝ) (sma : Option ℝ) (om lo qu : ℝ) (d nm : String)
    (im : ℝ) :
    celestial_body_init mass density sma om lo qu d nm hn (some host) im =
      .ok (.mk mass density om lo qu d nm hn sma (some host)) ∧
    (CelestialBody.mk mass density om lo qu d nm hn sma (some host)).hn =
      hn := by
  refine ⟨?_, rfl⟩
  obtain ⟨m2, r2, o2, k2, q2, d2, n2, h2, a2, hb2⟩ := host
  unfold celestial_body_init check_if_direct_orbits
  simp only [CelestialBody.hn] at hadj
  simp [hne, hadj, CelestialBody.hn]

/-- Witness for `init_enforces_no_hierarchy_range`: a body of hierarchy
number 5 (outside {1,2,3,4}) hosted by `sampleSubmoon` (hierarchy
number 4) is constructed successfully. -/
theorem init_enforces_no_hierarchy_range_witness :
    celestial_body_init 1 1 (some 1) 1 1 1 "f" "five" 5
      (some sampleSubmoon) 1 =
      .ok (.mk 1 1 1 1 1 "f" "five" 5 (some 1) (some sampleSubmoon)) ∧
    (CelestialBody.mk 1 1 1 1 1 "f" "five" 5 (some 1)
        (some sampleSubmoon)).hn = 5 :=
  init_enforces_no_hierarchy_range 5 sampleSubmoon (by decide)
    (by decide) 1 1 (some 1) 1 1 1 "f" "five" 1

/-- C5: for every positive `a` and positive `mu`, converting the axis to an
orbital frequency with `keplers_law_n_from_a_simple` and feeding the
result into the axis-from-frequency formula of `keplers_law_a_from_n`
with the same `mu` returns `a` exactly: the two directional Kepler
conversions are inverses for the same `(a, mu)` pair. -/
theorem kepler_conversions_round_trip (a mu : ℝ) (ha : 0 < a)
    (hmu : 0 < mu) :
    keplers_law_a_from_n_formula (keplers_law_n_from_a_simple a mu) mu =
      a := by
  unfold keplers_law_a_from_n_formula keplers_law_n_from_a_simple
  rw [Real.mul_rpow (Real.rpow_pos_of_pos hmu _).le
    (Real.rpow_pos_of_pos ha _).le,
    ← Real.rpow_mul hmu.le, ← Real.rpow_mul ha.le, ← mul_assoc,
    ← Real.rpow_add hmu]
  norm_num

/-- Witness for `kepler_conversions_round_trip` at `a = 4`, `mu = 9`. -/
theorem kepler_conversions_round_trip_witness :
    keplers_law_a_from_n_formula (keplers_law_n_from_a_simple 4 9) 9 = 4 :=
  kepler_conversions_round_trip 4 9 (by norm_num) (by norm_num)

/-- C6: for a hosted body `j` whose host is `i`,
`analytical_lifetime_one_tide a_0 a_c j` returns `lhs / rhs` with
`lhs = 2/13 * a_c^(13/2) * (1 - (a_0/a_c)^(13/2))` (exponent exactly
13/2) and `rhs = 3 * i.k / i.Q * (G/i.mass)^(1/2) * i.R^5 * j.mass`; and
for every positive `a_0`, evolving from `a_0` to `a_0` itself takes zero
time. -/
theorem analytical_lifetime_formula_and_zero (j i : CelestialBody)
    (hhost : j.hosting_body = some i) (a_0 a_c : ℝ) :
    analytical_lifetime_one_tide a_0 a_c j =
      .ok ((2 / 13 * a_c ^ ((13 : ℝ) / 2) *
          (1 - (a_0 / a_c) ^ ((13 : ℝ) / 2))) /
        (3 * i.k / i.Q * (Gconst / i.mass) ^ ((1 : ℝ) / 2) *
          i.R ^ (5 : ℕ) * j.mass)) ∧
    (0 < a_0 → analytical_lifetime_one_tide a_0 a_0 j = .ok 0) := by
  constructor
  · simp [analytical_lifetime_one_tide, hhost]
  · intro ha
    simp [analytical_lifetime_one_tide, hhost,
      div_self (ne_of_gt ha), Real.one_rpow]

/-- Witness for `analytical_lifetime_formula_and_zero` at `samplePlanet`
(hosted by `sampleStar`) with `a_0 = a_c = 1`. -/
theorem analytical_lifetime_formula_and_zero_witness :
    analytical_lifetime_one_tide 1 1 samplePlanet = .ok 0 :=
  (analytical_lifetime_formula_and_zero samplePlanet sampleStar rfl 1 1).2
    one_pos

/-- C7: for every body at hierarchy level 1 or 2, both
`get_hill_radius_relevant_to_body` and `get_critical_semi_major_axis`
emit the advisory warning and raise `ValueError`; for a body at level 3
or 4 whose host `j` (with axis `aj`) and grandparent `i` exist, the hill
radius is `aj * (j.mass / (3 * i.mass))^(1/3)` and the critical
semi-major axis is `f` times that, with `f = 0.4` at level 3 and
`f = 0.33` at level 4. -/
theorem hill_and_critical_axis_spec (hosted : CelestialBody) :
    (hosted.hn = 1 ∨ hosted.hn = 2 →
      get_hill_radius_relevant_to_body hosted =
        ([hillWarnMsg], .error .valueError) ∧
      get_critical_semi_major_axis hosted =
        ([hillWarnMsg], .error .valueError)) ∧
    (∀ j i aj, hosted.hosting_body = some j → j.hosting_body = some i →
      j.a = some aj →
      (hosted.hn = 3 →
        get_hill_radius_relevant_to_body hosted =
          ([], .ok (aj * (j.mass / (3 * i.mass)) ^ ((1 : ℝ) / 3))) ∧
        get_critical_semi_major_axis hosted =
          ([], .ok (0.4 *
            (aj * (j.mass / (3 * i.mass)) ^ ((1 : ℝ) / 3))))) ∧
      (hosted.hn = 4 →
        get_hill_radius_relevant_to_body hosted =
          ([], .ok (aj * (j.mass / (3 * i.mass)) ^ ((1 : ℝ) / 3))) ∧
        get_critical_semi_major_axis hosted =
          ([], .ok (0.33 *
            (aj * (j.mass / (3 * i.mass)) ^ ((1 : ℝ) / 3)))))) := by
  constructor
  · rintro (h1 | h2)
    · constructor
      · simp [get_hill_radius_relevant_to_body, h1]
      · simp [get_critical_semi_major_axis,
          get_hill_radius_relevant_to_body, h1]
    · constructor
      · simp [get_hill_radius_relevant_to_body, h2]
      · simp [get_critical_semi_major_axis,
          get_hill_radius_relevant_to_body, h2]
  · intro j i aj hj hi haj
    constructor
    · intro h3
      constructor
      · simp [get_hill_radius_relevant_to_body, h3, hj, hi, haj]
      · simp [get_critical_semi_major_axis,
          get_hill_radius_relevant_to_body, h3, hj, hi, haj, Except.map]
    · intro h4
      constructor
      · simp [get_hill_radius_relevant_to_body, h4, hj, hi, haj]
      · simp [get_critical_semi_major_axis,
          get_hill_radius_relevant_to_body, h4, hj, hi, haj, Except.map]

/-- Witness for `hill_and_critical_axis_spec` at the level-4
`sampleSubmoon`: the critical semi-major axis is 0.33 times the hill
radius computed from `sampleMoon` and `samplePlanet`. -/
theorem hill_and_critical_axis_spec_witness :
    get_critical_semi_major_axis sampleSubmoon =
      ([], .ok (0.33 * ((1 : ℝ) *
        (sampleMoon.mass / (3 * samplePlanet.mass)) ^ ((1 : ℝ) / 3)))) :=
  (((hill_and_critical_axis_spec sampleSubmoon).2 sampleMoon samplePlanet 1
    rfl rfl rfl).2 rfl).2

/-- C8: for any hosted body `j1` with host `i1`, `get_roche_limit` returns
`j1.R * (3 * i1.mass / j1.mass)^(1/3)`, and the limit is strictly
increasing in the host's mass: for a second hosted body `j2` with the
same mass and density (hence the same mean radius) but a strictly heavier
host, the Roche limit computed for `j2` is strictly larger. -/
theorem roche_limit_formula_and_monotone (j1 i1 j2 i2 : CelestialBody)
    (h1 : j1.hosting_body = some i1) (h2 : j2.hosting_body = some i2)
    (hm : j2.mass = j1.mass) (hr : j2.rho = j1.rho)
    (hmass : 0 < j1.mass) (hrho : 0 < j1.rho)
    (hi1 : 0 < i1.mass) (hlt : i1.mass < i2.mass) :
    get_roche_limit j1 =
      .ok (j1.R * (3 * i1.mass / j1.mass) ^ ((1 : ℝ) / 3)) ∧
    get_roche_limit j2 =
      .ok (j2.R * (3 * i2.mass / j2.mass) ^ ((1 : ℝ) / 3)) ∧
    j1.R * (3 * i1.mass / j1.mass) ^ ((1 : ℝ) / 3) <
      j2.R * (3 * i2.mass / j2.mass) ^ ((1 : ℝ) / 3) := by
  refine ⟨by simp [get_roche_limit, h1], by simp [get_roche_limit, h2], ?_⟩
  have hReq : j2.R = j1.R := by
    unfold CelestialBody.R
    rw [hm, hr]
  have hRpos : 0 < j1.R := by
    unfold CelestialBody.R
    have hbase : 0 < 3 * j1.mass / j1.rho / (4 * Real.pi) := by
      have hpi : 0 < 4 * Real.pi := by positivity
      positivity
    exact Real.rpow_pos_of_pos hbase _
  rw [hReq, hm]
  have harg : 3 * i1.mass / j1.mass < 3 * i2.mass / j1.mass := by
    gcongr
  exact mul_lt_mul_of_pos_left
    (Real.rpow_lt_rpow (by positivity) harg (by norm_num)) hRpos

/-- Witness for `roche_limit_formula_and_monotone`: the same hosted body
orbiting `sampleStar` (mass 1) and `heavyStar` (mass 8) — the Roche limit
strictly grows with the host mass. -/
theorem roche_limit_formula_and_monotone_witness :
    get_roche_limit rocheHostedLight =
      .ok (rocheHostedLight.R *
        (3 * sampleStar.mass / rocheHostedLight.mass) ^ ((1 : ℝ) / 3)) ∧
    get_roche_limit rocheHostedHeavy =
      .ok (rocheHostedHeavy.R *
        (3 * heavyStar.mass / rocheHostedHeavy.mass) ^ ((1 : ℝ) / 3)) ∧
    rocheHostedLight.R *
        (3 * sampleStar.mass / rocheHostedLight.mass) ^ ((1 : ℝ) / 3) <
      rocheHostedHeavy.R *
        (3 * heavyStar.mass / rocheHostedHeavy.mass) ^ ((1 : ℝ) / 3) :=
  roche_limit_formula_and_monotone rocheHostedLight sampleStar
    rocheHostedHeavy heavyStar rfl rfl rfl rfl
    (by norm_num [rocheHostedLight, CelestialBody.mass])
    (by norm_num [rocheHostedLight, CelestialBody.rho])
    (by norm_num [sampleStar, CelestialBody.mass])
    (by norm_num [sampleStar, heavyStar, CelestialBody.mass])
